import Mathlib

/-!
# Order use cases and controllers of tech-challenge-fase-2

Shallow embedding of

* `internal/core/use_cases/orders/checkout_order.go`
* `internal/core/use_cases/orders/add_order_item.go`
* `internal/infra/controllers/order_controller.go`

Conventions of the embedding.

* A Go `error` value is `Option GoError`: `none` is the nil error.
* A Go result `(v, err)` is the pair `(v, err)`. Pointer types whose `nil`
  literal is written in the embedded code (`*dtos.CheckoutDTO`,
  `*dtos.OrderDTO`, `*string`) are `Option`; the other pointer types
  (`*entities.Product`, `*entities.Order`) are type parameters standing for
  the pointer values. A nil slice is the empty list.
* The collaborators (repositories, payment gateway) are interface values, so
  they are parameters. They act on a world state `σ`: a lookup reads it and
  leaves it as it is, so whether an id resolves is a property of the id and
  the state; `Insert`, `Update` and the gateway may change it.
* Every function returns, next to its Go result, the list of collaborator
  calls it made, in order.
* The order entity is mutated through a pointer in Go; here each mutation
  returns the updated order.
-/

namespace TechChallenge

/-! ## Go values -/

/-- A non-nil Go `error`; `Error()` returns its message. -/
structure GoError where
  msg : String
deriving DecidableEq, Repr

/-- The method `Error()` of a Go error. -/
def GoError.Error (e : GoError) : String := e.msg

/-- Constant `http.StatusBadRequest` of the Go standard library. -/
def StatusBadRequest : Nat := 400

/-- Constant `http.StatusNotAcceptable` of the Go standard library. -/
def StatusNotAcceptable : Nat := 406

/-- Constant `http.StatusCreated` of the Go standard library. -/
def StatusCreated : Nat := 201

/-! ## Entities and data-transfer objects (packages `entities`, `dtos`) -/

/-- Modelled from the spec: the order lifecycle `OPEN → AWAITING_PAYMENT → PAID`
(the status constants of package `entities` are not among the sources). -/
inductive OrderStatus where
  | OPEN
  | AWAITING_PAYMENT
  | PAID
deriving DecidableEq, Repr

/-- Modelled from the spec: a payment method identifier handed to the gateway
(type of `dtos.PIX`, not among the sources). -/
abbrev PaymentMethod := String

/-- Modelled from the spec: `dtos.PIX`, the fixed payment method of checkout. -/
def PIX : PaymentMethod := "PIX"

/-- The functions of packages `entities` and `dtos` that the use cases call.
Their bodies are not among the sources, so they are parameters. -/
structure OrderEntity (Order Product OrderDTO : Type) where
  /-- Function `entities.CreateOpenOrder(customerId)`. -/
  CreateOpenOrder : Option String → Order
  /-- Method `order.AddItem(product, quantity)`. -/
  AddItem : Order → Product → Int → Order
  /-- Method `order.SetStatus(status)`. -/
  SetStatus : Order → OrderStatus → Order
  /-- Function `dtos.NewOrderDTOFromEntity(order)`. -/
  NewOrderDTOFromEntity : Order → Option OrderDTO

/-! ## Collaborator interfaces (packages `repositories`, `services`) -/

/-- Interface `repositories.OrderRepositoryInterface`. -/
structure OrderRepositoryInterface (σ Order : Type) where
  FindByID : σ → String → Order × Option GoError
  Insert : σ → Order → Option GoError × σ
  Update : σ → Order → Option GoError × σ

/-- Interface `repositories.CustomerRepositoryInterface`. -/
structure CustomerRepositoryInterface (σ Customer : Type) where
  GetCustomerByID : σ → String → Customer × Option GoError

/-- Interface `repositories.ProductRepositoryInterface`: the lookup by string
id used by checkout and the lookup by numeric id used by add-order-item. -/
structure ProductRepositoryInterface (σ Product : Type) where
  FindProductByID : σ → String → Product × Option GoError
  FindByID : σ → Int → Product × Option GoError

/-- Interface `services.PaymentGatewayInterface`. -/
structure PaymentGatewayInterface (σ OrderDTO CheckoutDTO : Type) where
  Execute : σ → Option OrderDTO → PaymentMethod →
    (Option CheckoutDTO × Option GoError) × σ

/-- A call on a collaborator, with its arguments. -/
inductive Call (Order OrderDTO : Type) where
  | GetCustomerByID (id : String)
  | FindProductByID (id : String)
  | ProductFindByID (id : Int)
  | OrderFindByID (id : String)
  | Insert (order : Order)
  | Update (order : Order)
  | PaymentGatewayExecute (order : Option OrderDTO) (method : PaymentMethod)
deriving DecidableEq, Repr

/-- Whether a call is a write on the order repository. -/
def Call.isOrderWrite {Order OrderDTO : Type} : Call Order OrderDTO → Bool
  | .Insert _ => true
  | .Update _ => true
  | _ => false

/-- Whether a call is on the order repository at all. -/
def Call.isOrderRepo {Order OrderDTO : Type} : Call Order OrderDTO → Bool
  | .OrderFindByID _ => true
  | .Insert _ => true
  | .Update _ => true
  | _ => false

/-- Whether a call is a product lookup. -/
def Call.isProductLookup {Order OrderDTO : Type} : Call Order OrderDTO → Bool
  | .FindProductByID _ => true
  | .ProductFindByID _ => true
  | _ => false

/-- Whether a call is on the customer repository. -/
def Call.isCustomerRepo {Order OrderDTO : Type} : Call Order OrderDTO → Bool
  | .GetCustomerByID _ => true
  | _ => false

/-- Whether a call is on the payment gateway. -/
def Call.isGateway {Order OrderDTO : Type} : Call Order OrderDTO → Bool
  | .PaymentGatewayExecute _ _ => true
  | _ => false

/-- What running a use case gives: the Go result, the world state afterwards,
and the collaborator calls made, in order. -/
structure Run (σ Order OrderDTO R : Type) where
  ret : Option R × Option GoError
  state : σ
  calls : List (Call Order OrderDTO)

variable {σ Order Product Customer OrderDTO CheckoutDTO : Type}

/-! ## `checkout_order.go` -/

/-- Struct `CheckoutOrderUseCase` (the unused `commandEventManager` field is
left out). -/
structure CheckoutOrderUseCase (σ Order Product Customer OrderDTO CheckoutDTO : Type) where
  orderRepository : OrderRepositoryInterface σ Order
  customerRepository : CustomerRepositoryInterface σ Customer
  productRepository : ProductRepositoryInterface σ Product
  paymentGateway : PaymentGatewayInterface σ OrderDTO CheckoutDTO

/-- Method `validateCustomerId`, lines 35-44. -/
def CheckoutOrderUseCase.validateCustomerId
    (c : CheckoutOrderUseCase σ Order Product Customer OrderDTO CheckoutDTO)
    (s : σ) (customerId : Option String) :
    Option GoError × List (Call Order OrderDTO) :=
  match customerId with
  | none => (none, [])
  | some id =>
    match (c.customerRepository.GetCustomerByID s id).2 with
    | some err => (some err, [.GetCustomerByID id])
    | none => (none, [.GetCustomerByID id])

/-- The `for ... range productsIds` loop of `fetchProducts`, lines 48-55:
`products` is the slice accumulated so far. -/
def CheckoutOrderUseCase.fetchProductsLoop
    (c : CheckoutOrderUseCase σ Order Product Customer OrderDTO CheckoutDTO)
    (s : σ) : List String → List Product →
    (List Product × Option GoError) × List (Call Order OrderDTO)
  | [], products => ((products, none), [])
  | productId :: rest, products =>
    match c.productRepository.FindProductByID s productId with
    | (_, some err) => (([], some err), [.FindProductByID productId])
    | (product, none) =>
      let r := c.fetchProductsLoop s rest (products ++ [product])
      (r.1, .FindProductByID productId :: r.2)

/-- Method `fetchProducts`, lines 46-56. -/
def CheckoutOrderUseCase.fetchProducts
    (c : CheckoutOrderUseCase σ Order Product Customer OrderDTO CheckoutDTO)
    (s : σ) (productsIds : List String) :
    (List Product × Option GoError) × List (Call Order OrderDTO) :=
  c.fetchProductsLoop s productsIds []

/-- Method `Execute`, lines 58-100. -/
def CheckoutOrderUseCase.Execute
    (E : OrderEntity Order Product OrderDTO)
    (c : CheckoutOrderUseCase σ Order Product Customer OrderDTO CheckoutDTO)
    (s : σ) (customerId : Option String) (productsIds : List String) :
    Run σ Order OrderDTO CheckoutDTO :=
  match c.validateCustomerId s customerId with
  | (some err, t1) => ⟨(none, some err), s, t1⟩
  | (none, t1) =>
    match c.fetchProducts s productsIds with
    | ((_, some err), t2) => ⟨(none, some err), s, t1 ++ t2⟩
    | ((products, none), t2) =>
      let order := E.CreateOpenOrder customerId
      let order := products.foldl (fun o product => E.AddItem o product 1) order
      let order := E.SetStatus order OrderStatus.AWAITING_PAYMENT
      let dto := E.NewOrderDTOFromEntity order
      match c.paymentGateway.Execute s dto PIX with
      | ((_, some err), s1) =>
        ⟨(none, some err), s1, t1 ++ t2 ++ [.PaymentGatewayExecute dto PIX]⟩
      | ((checkout, none), s1) =>
        let s2 := (c.orderRepository.Insert s1 order).2
        ⟨(checkout, none), s2,
          t1 ++ t2 ++ [.PaymentGatewayExecute dto PIX, .Insert order]⟩

/-! ## `add_order_item.go` -/

/-- Struct `AddOrderItemUseCaseRequest`. -/
structure AddOrderItemUseCaseRequest where
  ProductID : Int
  Quantity : Int
  OrderID : String
deriving DecidableEq, Repr

/-- Struct `AddOrderItemUseCase`. -/
structure AddOrderItemUseCase (σ Order Product : Type) where
  orderRepository : OrderRepositoryInterface σ Order
  productRepository : ProductRepositoryInterface σ Product

/-- Method `Execute`, lines 29-41. The two statements after the `return` are
commented out in the source and so are not part of the function. -/
def AddOrderItemUseCase.Execute
    (E : OrderEntity Order Product OrderDTO)
    (co : AddOrderItemUseCase σ Order Product)
    (s : σ) (request : AddOrderItemUseCaseRequest) :
    Run σ Order OrderDTO OrderDTO :=
  match (co.productRepository.FindByID s request.ProductID).2 with
  | some err => ⟨(none, some err), s, [.ProductFindByID request.ProductID]⟩
  | none =>
    match co.orderRepository.FindByID s request.OrderID with
    | (_, some err) =>
      ⟨(none, some err), s,
        [.ProductFindByID request.ProductID, .OrderFindByID request.OrderID]⟩
    | (order, none) =>
      ⟨(E.NewOrderDTOFromEntity order, none), s,
        [.ProductFindByID request.ProductID, .OrderFindByID request.OrderID]⟩

/-! ## `order_controller.go` -/

/-- Struct `request.OpenOrderRequest` (package `request` is not among the
sources; the controller reads its field `CustomerID`). -/
structure OpenOrderRequest where
  CustomerID : Option String
deriving DecidableEq, Repr

/-- Struct `request.AddOrderItemRequest` (package `request` is not among the
sources; the controller reads and writes these three fields). -/
structure AddOrderItemRequest where
  ProductID : Int
  Quantity : Int
  OrderID : String
deriving DecidableEq, Repr

/-- The part of `httpserver.HTTPContext` the controllers use: `BindJSON`
fills the request it is given from the body (its error is dropped by the
controllers), `Param` reads a path parameter. -/
structure HTTPContext (Req : Type) where
  BindJSON : Req → Req
  Param : String → String

/-- What a controller does, in order: it runs a use case, or it sends a
response through the helpers `sendError(c, code, msg)` and
`sendSuccess(c, code, op, data)` of package `controllers` (their bodies are
not among the sources, so a response is the helper call with its arguments). -/
inductive ControllerEvent (Order OrderDTO : Type) where
  | OpenOrderExecute (customerId : Option String)
  | AddOrderItemExecute (request : AddOrderItemUseCaseRequest)
      (calls : List (Call Order OrderDTO))
  | sendError (code : Nat) (msg : String)
  | sendSuccess (code : Nat) (op : String) (data : Option OrderDTO)
deriving DecidableEq, Repr

/-- Whether a controller event is a response sent to the client. -/
def ControllerEvent.isResponse {Order OrderDTO : Type} :
    ControllerEvent Order OrderDTO → Bool
  | .sendError _ _ => true
  | .sendSuccess _ _ _ => true
  | _ => false

/-- Whether a controller event is the execution of a use case. -/
def ControllerEvent.isUseCase {Order OrderDTO : Type} :
    ControllerEvent Order OrderDTO → Bool
  | .OpenOrderExecute _ => true
  | .AddOrderItemExecute _ _ => true
  | _ => false

/-- Struct `OrderController` (the unused `commandEventManager` field is left
out). -/
structure OrderController (σ Order Product Customer OrderDTO CheckoutDTO : Type) where
  orderRepository : OrderRepositoryInterface σ Order
  customerRepository : CustomerRepositoryInterface σ Customer
  productRepository : ProductRepositoryInterface σ Product
  paymentGateway : PaymentGatewayInterface σ OrderDTO CheckoutDTO

/-- The open-order use case, `orders.NewOpenOrderUseCase(orderRepository,
customerRepository).Execute(customerId)`. Its file is not among the sources,
so it is a parameter of the controller. -/
abbrev OpenOrderUseCaseExecute (σ Order Customer OrderDTO : Type) :=
  OrderRepositoryInterface σ Order → CustomerRepositoryInterface σ Customer →
    σ → Option String → (Option OrderDTO × Option GoError) × σ

/-- Method `OrderController.OpenOrder`, lines 50-73. `Validate` is the method
`request.Validate()` of `OpenOrderRequest`. -/
def OrderController.OpenOrder
    (Validate : OpenOrderRequest → Option GoError)
    (openOrderExecute : OpenOrderUseCaseExecute σ Order Customer OrderDTO)
    (cc : OrderController σ Order Product Customer OrderDTO CheckoutDTO)
    (s : σ) (c : HTTPContext OpenOrderRequest) :
    List (ControllerEvent Order OrderDTO) × σ :=
  let request := c.BindJSON { CustomerID := none }
  match Validate request with
  | some err => ([.sendError StatusBadRequest err.Error], s)
  | none =>
    match openOrderExecute cc.orderRepository cc.customerRepository s
        request.CustomerID with
    | ((_, some err), s1) =>
      ([.OpenOrderExecute request.CustomerID,
        .sendError StatusNotAcceptable err.Error], s1)
    | ((order, none), s1) =>
      ([.OpenOrderExecute request.CustomerID,
        .sendSuccess StatusCreated "open-order" order], s1)

/-- Method `OrderController.AddOrderItem`, lines 88-117. `Validate` is the
method `request.Validate()` of `AddOrderItemRequest`. -/
def OrderController.AddOrderItem
    (E : OrderEntity Order Product OrderDTO)
    (Validate : AddOrderItemRequest → Option GoError)
    (cc : OrderController σ Order Product Customer OrderDTO CheckoutDTO)
    (s : σ) (c : HTTPContext AddOrderItemRequest) :
    List (ControllerEvent Order OrderDTO) × σ :=
  let request := c.BindJSON { ProductID := 0, Quantity := 0, OrderID := "" }
  let request := { request with OrderID := c.Param "order_id" }
  match Validate request with
  | some err => ([.sendError StatusBadRequest err.Error], s)
  | none =>
    let addItemOrderUseCase : AddOrderItemUseCase σ Order Product :=
      { orderRepository := cc.orderRepository,
        productRepository := cc.productRepository }
    let ucRequest : AddOrderItemUseCaseRequest :=
      { ProductID := request.ProductID,
        Quantity := request.Quantity,
        OrderID := request.OrderID }
    let r := addItemOrderUseCase.Execute E s ucRequest
    match r.ret with
    | (_, some err) =>
      ([.AddOrderItemExecute ucRequest r.calls,
        .sendError StatusNotAcceptable err.Error], r.state)
    | (order, none) =>
      ([.AddOrderItemExecute ucRequest r.calls,
        .sendSuccess StatusCreated "add-order-item" order], r.state)

/-! ## A concrete order aggregate and concrete collaborators

Used to evaluate the use cases on concrete inputs. -/

/-- Modelled from the spec: a line item, a product reference and a quantity
(the entity is not among the sources). -/
structure OrderItem (Product : Type) where
  product : Product
  quantity : Int
deriving DecidableEq, Repr

/-- Modelled from the spec: the order aggregate, with its identifier, optional
customer reference, ordered sequence of line items and status (the entity is
not among the sources). -/
structure SpecOrder (Product : Type) where
  id : String
  customerId : Option String
  items : List (OrderItem Product)
  status : OrderStatus
deriving DecidableEq, Repr

/-- Modelled from the spec: the operations of the order aggregate. An order is
opened with status `OPEN` and no items, `AddItem` appends one line item,
`SetStatus` replaces the status, and the data-transfer representation is a
snapshot of the order. `newId` is the identifier a new order gets. -/
def specOrderEntity (Product : Type) (newId : String) :
    OrderEntity (SpecOrder Product) Product (SpecOrder Product) where
  CreateOpenOrder := fun customerId =>
    { id := newId, customerId := customerId, items := [], status := OrderStatus.OPEN }
  AddItem := fun o product quantity =>
    { o with items := o.items ++ [{ product := product, quantity := quantity }] }
  SetStatus := fun o status => { o with status := status }
  NewOrderDTOFromEntity := fun o => some o

/-- An in-memory order repository over the list of persisted orders. -/
def memOrderRepository :
    OrderRepositoryInterface (List (SpecOrder String)) (SpecOrder String) where
  FindByID := fun s id =>
    match s.find? (fun o => o.id == id) with
    | some o => (o, none)
    | none => (⟨"", none, [], OrderStatus.OPEN⟩, some ⟨"order not found"⟩)
  Insert := fun s o => (none, s ++ [o])
  Update := fun s o => (none, s.map (fun p => if p.id == o.id then o else p))

/-- An order repository whose writes fail and persist nothing. -/
def failingOrderRepository :
    OrderRepositoryInterface (List (SpecOrder String)) (SpecOrder String) where
  FindByID := memOrderRepository.FindByID
  Insert := fun s _ => (some ⟨"insert failed"⟩, s)
  Update := fun s _ => (some ⟨"update failed"⟩, s)

/-- A customer repository that knows the single customer `c1`. -/
def memCustomerRepository :
    CustomerRepositoryInterface (List (SpecOrder String)) String where
  GetCustomerByID := fun _ id =>
    if id == "c1" then ("c1", none) else ("", some ⟨"customer not found"⟩)

/-- A product repository that knows the products `p1` (numeric id 1) and
`p2` (numeric id 2). -/
def memProductRepository :
    ProductRepositoryInterface (List (SpecOrder String)) String where
  FindProductByID := fun _ id =>
    if id == "p1" || id == "p2" then (id, none)
    else ("", some ⟨"product not found"⟩)
  FindByID := fun _ id =>
    if id == 1 then ("p1", none)
    else if id == 2 then ("p2", none)
    else ("", some ⟨"product not found"⟩)

/-- A payment gateway that always answers with the confirmation `qr`. -/
def okGateway :
    PaymentGatewayInterface (List (SpecOrder String)) (SpecOrder String) String where
  Execute := fun s _ _ => ((some "qr", none), s)

/-- A payment gateway that always fails. -/
def failingGateway :
    PaymentGatewayInterface (List (SpecOrder String)) (SpecOrder String) String where
  Execute := fun s _ _ => ((none, some ⟨"gateway down"⟩), s)

/-- The checkout use case over the in-memory collaborators. -/
def memCheckout (orders : OrderRepositoryInterface (List (SpecOrder String)) (SpecOrder String))
    (gateway : PaymentGatewayInterface (List (SpecOrder String)) (SpecOrder String) String) :
    CheckoutOrderUseCase (List (SpecOrder String)) (SpecOrder String) String String
      (SpecOrder String) String where
  orderRepository := orders
  customerRepository := memCustomerRepository
  productRepository := memProductRepository
  paymentGateway := gateway

/-- The add-order-item use case over the in-memory collaborators. -/
def memAddOrderItem :
    AddOrderItemUseCase (List (SpecOrder String)) (SpecOrder String) String where
  orderRepository := memOrderRepository
  productRepository := memProductRepository

/-- The order controller over the in-memory collaborators. -/
def memController :
    OrderController (List (SpecOrder String)) (SpecOrder String) String String
      (SpecOrder String) String where
  orderRepository := memOrderRepository
  customerRepository := memCustomerRepository
  productRepository := memProductRepository
  paymentGateway := okGateway

/-- An open order `o1` with no items, as persisted. -/
def openOrder1 : SpecOrder String :=
  { id := "o1", customerId := none, items := [], status := OrderStatus.OPEN }

/-- A payment gateway whose state is the number of times it was executed; it
answers with the confirmation `qr`. -/
def countingGateway : PaymentGatewayInterface Nat (SpecOrder String) String where
  Execute := fun n _ _ => ((some "qr", none), n + 1)

/-- A payment gateway whose state is the number of times it was executed; it
always fails. -/
def countingFailingGateway : PaymentGatewayInterface Nat (SpecOrder String) String where
  Execute := fun n _ _ => ((none, some ⟨"gateway down"⟩), n + 1)

/-- The checkout use case over a state that counts the gateway executions:
the repositories know the customer `c1` and the products `p1`, `p2`, and
leave the count as it is. -/
def countingCheckout (gateway : PaymentGatewayInterface Nat (SpecOrder String) String) :
    CheckoutOrderUseCase Nat (SpecOrder String) String String (SpecOrder String) String where
  orderRepository :=
    { FindByID := fun _ _ => (⟨"", none, [], OrderStatus.OPEN⟩, some ⟨"order not found"⟩),
      Insert := fun n _ => (none, n),
      Update := fun n _ => (none, n) }
  customerRepository :=
    { GetCustomerByID := fun _ id => memCustomerRepository.GetCustomerByID [] id }
  productRepository :=
    { FindProductByID := fun _ id => memProductRepository.FindProductByID [] id,
      FindByID := fun _ id => memProductRepository.FindByID [] id }
  paymentGateway := gateway

/-! ## Vocabulary of the claims -/

/-- Modelled from the spec: the open-order use case (its file is not among the
sources). A supplied customer id must resolve; then a new open order is
inserted and its data-transfer representation returned. -/
def specOpenOrderExecute (E : OrderEntity Order Product OrderDTO) :
    OpenOrderUseCaseExecute σ Order Customer OrderDTO :=
  fun orders customers s customerId =>
    let open_ : (Option OrderDTO × Option GoError) × σ :=
      let order := E.CreateOpenOrder customerId
      match orders.Insert s order with
      | (some err, s1) => ((none, some err), s1)
      | (none, s1) => ((E.NewOrderDTOFromEntity order, none), s1)
    match customerId with
    | none => open_
    | some id =>
      match (customers.GetCustomerByID s id).2 with
      | some err => ((none, some err), s)
      | none => open_

/-- A validator of open-order requests that rejects the empty customer id. -/
def demoValidateOpen (r : OpenOrderRequest) : Option GoError :=
  if r.CustomerID = some "" then some ⟨"customer_id is empty"⟩ else none

/-- A validator of add-order-item requests that rejects a quantity below 1. -/
def demoValidateAdd (r : AddOrderItemRequest) : Option GoError :=
  if r.Quantity < 1 then some ⟨"quantity is invalid"⟩ else none

/-- A request context whose body binds the given customer id. -/
def openContext (customerId : Option String) : HTTPContext OpenOrderRequest where
  BindJSON := fun _ => { CustomerID := customerId }
  Param := fun _ => ""

/-- A request context whose body binds the given product id and quantity and
whose path parameter `order_id` is the given order id. -/
def addContext (productId quantity : Int) (orderId : String) :
    HTTPContext AddOrderItemRequest where
  BindJSON := fun r => { r with ProductID := productId, Quantity := quantity }
  Param := fun name => if name == "order_id" then orderId else ""

/-- The request `OpenOrder` validates: the zero request after `BindJSON`. -/
def openOrderRequest (c : HTTPContext OpenOrderRequest) : OpenOrderRequest :=
  c.BindJSON { CustomerID := none }

/-- The request `AddOrderItem` validates: the zero request after `BindJSON`,
with `OrderID` replaced by the path parameter `order_id`. -/
def addOrderItemRequest (c : HTTPContext AddOrderItemRequest) : AddOrderItemRequest :=
  { c.BindJSON { ProductID := 0, Quantity := 0, OrderID := "" } with
    OrderID := c.Param "order_id" }

/-- The use-case request `AddOrderItem` builds from the validated request. -/
def addOrderItemUseCaseRequest (c : HTTPContext AddOrderItemRequest) :
    AddOrderItemUseCaseRequest :=
  { ProductID := (addOrderItemRequest c).ProductID,
    Quantity := (addOrderItemRequest c).Quantity,
    OrderID := (addOrderItemRequest c).OrderID }

/-- The use case `AddOrderItem` builds from the controller repositories. -/
def OrderController.addOrderItemUseCase
    (cc : OrderController σ Order Product Customer OrderDTO CheckoutDTO) :
    AddOrderItemUseCase σ Order Product :=
  { orderRepository := cc.orderRepository,
    productRepository := cc.productRepository }

/-- The customer id is nil or resolves in the customer repository. -/
def CustomerResolves
    (c : CheckoutOrderUseCase σ Order Product Customer OrderDTO CheckoutDTO)
    (s : σ) (customerId : Option String) : Prop :=
  ∀ id, customerId = some id → (c.customerRepository.GetCustomerByID s id).2 = none

/-- Every id of the sequence resolves in the product repository. -/
def ProductsResolve
    (c : CheckoutOrderUseCase σ Order Product Customer OrderDTO CheckoutDTO)
    (s : σ) (ids : List String) : Prop :=
  ∀ id ∈ ids, (c.productRepository.FindProductByID s id).2 = none

/-- The product the repository returns for an id. -/
def resolvedProduct
    (c : CheckoutOrderUseCase σ Order Product Customer OrderDTO CheckoutDTO)
    (s : σ) (id : String) : Product :=
  (c.productRepository.FindProductByID s id).1

/-- The calls on the customer repository for a customer id: none for nil, one
lookup otherwise. -/
def customerCalls (customerId : Option String) : List (Call Order OrderDTO) :=
  customerId.toList.map Call.GetCustomerByID

/-- The order the claims describe for checkout: opened for the customer, then
one `AddItem` per product id, in input order, each with the product the id
resolves to and quantity 1, then `SetStatus(AWAITING_PAYMENT)`. -/
def describedOrder
    (E : OrderEntity Order Product OrderDTO)
    (c : CheckoutOrderUseCase σ Order Product Customer OrderDTO CheckoutDTO)
    (s : σ) (customerId : Option String) (ids : List String) : Order :=
  E.SetStatus
    (ids.foldl (fun o id => E.AddItem o (resolvedProduct c s id) 1)
      (E.CreateOpenOrder customerId))
    OrderStatus.AWAITING_PAYMENT

end TechChallenge

namespace TechChallenge

variable {σ Order Product Customer OrderDTO CheckoutDTO : Type}

/-! ## Lemmas on the product loop and on customer validation -/

/-- When every id resolves, the loop appends the resolved products to the
accumulator and looks every id up once, in order. -/
theorem fetchProductsLoop_resolve
    (c : CheckoutOrderUseCase σ Order Product Customer OrderDTO CheckoutDTO)
    (s : σ) (ids : List String) (acc : List Product)
    (h : ProductsResolve c s ids) :
    c.fetchProductsLoop s ids acc =
      ((acc ++ ids.map (resolvedProduct c s), none),
        ids.map (Call.FindProductByID : String → Call Order OrderDTO)) := by
  induction ids generalizing acc with
  | nil => simp [CheckoutOrderUseCase.fetchProductsLoop]
  | cons id rest ih =>
    have hid : (c.productRepository.FindProductByID s id).2 = none :=
      h id (List.mem_cons_self _ _)
    have hrest : ProductsResolve c s rest :=
      fun x hx => h x (List.mem_cons_of_mem _ hx)
    have hpair : c.productRepository.FindProductByID s id
        = (resolvedProduct c s id, none) := by
      rw [← hid]; rfl
    simp only [CheckoutOrderUseCase.fetchProductsLoop, hpair, ih _ hrest]
    simp

/-- The loop stops at the first id that fails: it returns that error and has
looked up the ids before it and that id, and nothing after. -/
theorem fetchProductsLoop_fail
    (c : CheckoutOrderUseCase σ Order Product Customer OrderDTO CheckoutDTO)
    (s : σ) (pre : List String) (bad : String) (post : List String)
    (acc : List Product) (e : GoError)
    (hpre : ProductsResolve c s pre)
    (hbad : (c.productRepository.FindProductByID s bad).2 = some e) :
    c.fetchProductsLoop s (pre ++ bad :: post) acc =
      (([], some e),
        (pre ++ [bad]).map (Call.FindProductByID : String → Call Order OrderDTO)) := by
  induction pre generalizing acc with
  | nil =>
    have hpair : c.productRepository.FindProductByID s bad
        = ((c.productRepository.FindProductByID s bad).1, some e) := by
      rw [← hbad]
    simp only [List.nil_append, CheckoutOrderUseCase.fetchProductsLoop]
    rw [hpair]
    simp
  | cons id rest ih =>
    have hid : (c.productRepository.FindProductByID s id).2 = none :=
      hpre id (List.mem_cons_self _ _)
    have hrest : ProductsResolve c s rest :=
      fun x hx => hpre x (List.mem_cons_of_mem _ hx)
    have hpair : c.productRepository.FindProductByID s id
        = (resolvedProduct c s id, none) := by
      rw [← hid]; rfl
    simp only [List.cons_append, CheckoutOrderUseCase.fetchProductsLoop, hpair,
      List.append_eq]
    rw [ih _ hrest]
    simp

/-- Validation of a nil or resolvable customer id succeeds, with the calls of
`customerCalls`. -/
theorem validateCustomerId_resolve
    (c : CheckoutOrderUseCase σ Order Product Customer OrderDTO CheckoutDTO)
    (s : σ) (customerId : Option String) (h : CustomerResolves c s customerId) :
    c.validateCustomerId s customerId = (none, customerCalls customerId) := by
  cases customerId with
  | none => rfl
  | some id =>
    have hid := h id rfl
    simp [CheckoutOrderUseCase.validateCustomerId, hid, customerCalls]

/-- A sequence with a failing id splits at its first failing id. -/
theorem exists_first_failure
    (c : CheckoutOrderUseCase σ Order Product Customer OrderDTO CheckoutDTO)
    (s : σ) (ids : List String)
    (h : ∃ id ∈ ids, (c.productRepository.FindProductByID s id).2 ≠ none) :
    ∃ pre bad post e, ids = pre ++ bad :: post ∧ ProductsResolve c s pre ∧
      (c.productRepository.FindProductByID s bad).2 = some e := by
  induction ids with
  | nil => obtain ⟨id, hid, _⟩ := h; cases hid
  | cons x rest ih =>
    cases hx : (c.productRepository.FindProductByID s x).2 with
    | some e =>
      refine ⟨[], x, rest, e, rfl, ?_, hx⟩
      intro y hy
      cases hy
    | none =>
      obtain ⟨id, hid, hne⟩ := h
      have hrest : ∃ id ∈ rest, (c.productRepository.FindProductByID s id).2 ≠ none := by
        rcases List.mem_cons.mp hid with rfl | hmem
        · exact absurd hx hne
        · exact ⟨id, hmem, hne⟩
      obtain ⟨pre, bad, post, e, hsplit, hpre, hbad⟩ := ih hrest
      refine ⟨x :: pre, bad, post, e, by simp [hsplit], ?_, hbad⟩
      intro y hy
      rcases List.mem_cons.mp hy with rfl | hmem
      · exact hx
      · exact hpre y hmem

/-- The fold over the resolved products is the fold over the ids. -/
theorem foldl_resolved
    (E : OrderEntity Order Product OrderDTO)
    (c : CheckoutOrderUseCase σ Order Product Customer OrderDTO CheckoutDTO)
    (s : σ) (ids : List String) (o : Order) :
    (ids.map (resolvedProduct c s)).foldl (fun o product => E.AddItem o product 1) o
      = ids.foldl (fun o id => E.AddItem o (resolvedProduct c s id) 1) o := by
  induction ids generalizing o with
  | nil => rfl
  | cons id rest ih => simp [List.foldl, ih]

/-- The calls of the product loop are all product lookups. -/
theorem fetchProductsLoop_calls
    (c : CheckoutOrderUseCase σ Order Product Customer OrderDTO CheckoutDTO)
    (s : σ) (ids : List String) (acc : List Product) :
    ∀ call ∈ (c.fetchProductsLoop s ids acc).2,
      ∃ id, call = (Call.FindProductByID id : Call Order OrderDTO) := by
  induction ids generalizing acc with
  | nil => simp [CheckoutOrderUseCase.fetchProductsLoop]
  | cons id rest ih =>
    intro call hcall
    unfold CheckoutOrderUseCase.fetchProductsLoop at hcall
    split at hcall
    · simp only [List.mem_singleton] at hcall
      exact ⟨id, hcall⟩
    · simp only [List.mem_cons] at hcall
      rcases hcall with h | h
      · exact ⟨id, h⟩
      · exact ih _ call h

/-- Checkout when the customer and every product resolve and the gateway
fails: the run ends after the gateway call. -/
theorem Execute_gateway_error
    (E : OrderEntity Order Product OrderDTO)
    (c : CheckoutOrderUseCase σ Order Product Customer OrderDTO CheckoutDTO)
    (s : σ) (customerId : Option String) (ids : List String)
    (k : Option CheckoutDTO) (e : GoError) (s1 : σ)
    (hc : CustomerResolves c s customerId) (hp : ProductsResolve c s ids)
    (hg : c.paymentGateway.Execute s
        (E.NewOrderDTOFromEntity (describedOrder E c s customerId ids)) PIX
        = ((k, some e), s1)) :
    CheckoutOrderUseCase.Execute E c s customerId ids =
      ⟨(none, some e), s1,
        customerCalls customerId ++ ids.map Call.FindProductByID ++
          [Call.PaymentGatewayExecute
            (E.NewOrderDTOFromEntity (describedOrder E c s customerId ids)) PIX]⟩ := by
  unfold describedOrder at hg
  simp only [CheckoutOrderUseCase.Execute, validateCustomerId_resolve c s customerId hc,
    CheckoutOrderUseCase.fetchProducts, fetchProductsLoop_resolve c s ids [] hp,
    List.nil_append, foldl_resolved, hg, describedOrder]

/-- Checkout when the customer and every product resolve and the gateway
succeeds: the run ends with the insert of the described order. -/
theorem Execute_gateway_ok
    (E : OrderEntity Order Product OrderDTO)
    (c : CheckoutOrderUseCase σ Order Product Customer OrderDTO CheckoutDTO)
    (s : σ) (customerId : Option String) (ids : List String)
    (k : Option CheckoutDTO) (s1 : σ)
    (hc : CustomerResolves c s customerId) (hp : ProductsResolve c s ids)
    (hg : c.paymentGateway.Execute s
        (E.NewOrderDTOFromEntity (describedOrder E c s customerId ids)) PIX
        = ((k, none), s1)) :
    CheckoutOrderUseCase.Execute E c s customerId ids =
      ⟨(k, none),
        (c.orderRepository.Insert s1 (describedOrder E c s customerId ids)).2,
        customerCalls customerId ++ ids.map Call.FindProductByID ++
          [Call.PaymentGatewayExecute
            (E.NewOrderDTOFromEntity (describedOrder E c s customerId ids)) PIX,
           Call.Insert (describedOrder E c s customerId ids)]⟩ := by
  unfold describedOrder at hg
  simp only [CheckoutOrderUseCase.Execute, validateCustomerId_resolve c s customerId hc,
    CheckoutOrderUseCase.fetchProducts, fetchProductsLoop_resolve c s ids [] hp,
    List.nil_append, foldl_resolved, hg, describedOrder]

/-- Checkout when the customer resolves and a product lookup fails: the run
ends at the first failing lookup. -/
theorem Execute_product_failure
    (E : OrderEntity Order Product OrderDTO)
    (c : CheckoutOrderUseCase σ Order Product Customer OrderDTO CheckoutDTO)
    (s : σ) (customerId : Option String)
    (pre : List String) (bad : String) (post : List String) (e : GoError)
    (hc : CustomerResolves c s customerId) (hpre : ProductsResolve c s pre)
    (hbad : (c.productRepository.FindProductByID s bad).2 = some e) :
    CheckoutOrderUseCase.Execute E c s customerId (pre ++ bad :: post) =
      ⟨(none, some e), s,
        customerCalls customerId ++ (pre ++ [bad]).map Call.FindProductByID⟩ := by
  simp only [CheckoutOrderUseCase.Execute, validateCustomerId_resolve c s customerId hc,
    CheckoutOrderUseCase.fetchProducts,
    fetchProductsLoop_fail c s pre bad post [] e hpre hbad]

/-- An observer of the order that starts empty, grows by one entry per
`AddItem` and is unchanged by `SetStatus` sees, on the described order, one
entry per product id, in input order, each with quantity 1. -/
theorem describedOrder_items
    (E : OrderEntity Order Product OrderDTO)
    (c : CheckoutOrderUseCase σ Order Product Customer OrderDTO CheckoutDTO)
    (s : σ) (customerId : Option String) (ids : List String)
    (items : Order → List (Product × Int))
    (hopen : ∀ cid, items (E.CreateOpenOrder cid) = [])
    (hadd : ∀ o p q, items (E.AddItem o p q) = items o ++ [(p, q)])
    (hset : ∀ o st, items (E.SetStatus o st) = items o) :
    items (describedOrder E c s customerId ids)
      = ids.map (fun id => (resolvedProduct c s id, (1 : Int))) := by
  have key : ∀ (l : List String) (o : Order),
      items (l.foldl (fun o id => E.AddItem o (resolvedProduct c s id) 1) o)
        = items o ++ l.map (fun id => (resolvedProduct c s id, (1 : Int))) := by
    intro l
    induction l with
    | nil => intro o; simp
    | cons id rest ih => intro o; simp [List.foldl, ih, hadd]
  simp [describedOrder, hset, key, hopen]

/-! ## Checkout: the claims -/

/-- C1, evaluated where it fails: with no customer, the product `p1`, a
gateway that answers `qr` and an order repository whose `Insert` returns an
error and stores nothing, `Execute` calls `Insert`, drops its error and returns
the confirmation `qr` with a nil error, while no order is persisted. -/
theorem checkout_insert_error_dropped :
    (failingOrderRepository.Insert []
        (describedOrder (specOrderEntity String "n1")
          (memCheckout failingOrderRepository okGateway) [] none ["p1"])).1
      = some ⟨"insert failed"⟩ ∧
    ((memCheckout failingOrderRepository okGateway).Execute
        (specOrderEntity String "n1") [] none ["p1"]).ret = (some "qr", none) ∧
    ((memCheckout failingOrderRepository okGateway).Execute
        (specOrderEntity String "n1") [] none ["p1"]).state = [] ∧
    ((memCheckout failingOrderRepository okGateway).Execute
        (specOrderEntity String "n1") [] none ["p1"]).calls =
      [Call.FindProductByID "p1",
       Call.PaymentGatewayExecute
         (some ⟨"n1", none, [⟨"p1", 1⟩], OrderStatus.AWAITING_PAYMENT⟩) "PIX",
       Call.Insert ⟨"n1", none, [⟨"p1", 1⟩], OrderStatus.AWAITING_PAYMENT⟩] := by
  decide

/-- C2: when the customer id is nil or resolves, every product id resolves and
the payment gateway returns the error `e`, `Execute` returns `(nil, e)`, makes
no write on the order repository (its calls are the customer lookup, the
product lookups and the one gateway call), and leaves the state as the gateway
left it. -/
theorem checkout_gateway_failure
    (E : OrderEntity Order Product OrderDTO)
    (c : CheckoutOrderUseCase σ Order Product Customer OrderDTO CheckoutDTO)
    (s : σ) (customerId : Option String) (ids : List String) (e : GoError)
    (hc : CustomerResolves c s customerId) (hp : ProductsResolve c s ids)
    (hg : (c.paymentGateway.Execute s
        (E.NewOrderDTOFromEntity (describedOrder E c s customerId ids)) PIX).1.2
        = some e) :
    (CheckoutOrderUseCase.Execute E c s customerId ids).ret = (none, some e) ∧
    (∀ call ∈ (CheckoutOrderUseCase.Execute E c s customerId ids).calls,
      call.isOrderWrite = false) ∧
    (CheckoutOrderUseCase.Execute E c s customerId ids).calls =
      customerCalls customerId ++ ids.map Call.FindProductByID ++
        [Call.PaymentGatewayExecute
          (E.NewOrderDTOFromEntity (describedOrder E c s customerId ids)) PIX] ∧
    (CheckoutOrderUseCase.Execute E c s customerId ids).state =
      (c.paymentGateway.Execute s
        (E.NewOrderDTOFromEntity (describedOrder E c s customerId ids)) PIX).2 := by
  have hrun := Execute_gateway_error E c s customerId ids
    (c.paymentGateway.Execute s
      (E.NewOrderDTOFromEntity (describedOrder E c s customerId ids)) PIX).1.1 e
    (c.paymentGateway.Execute s
      (E.NewOrderDTOFromEntity (describedOrder E c s customerId ids)) PIX).2 hc hp
    (by rw [← hg])
  rw [hrun]
  refine ⟨rfl, ?_, rfl, rfl⟩
  intro call hcall
  simp only [List.mem_append, List.mem_map, List.mem_singleton, customerCalls,
    Option.mem_toList] at hcall
  rcases hcall with (⟨id, _, rfl⟩ | ⟨id, _, rfl⟩) | rfl <;> rfl

/-- Witness of C2: customer `c1`, products `p1`, `p2` and a failing gateway. -/
theorem checkout_gateway_failure_witness :
    ((memCheckout memOrderRepository failingGateway).Execute
        (specOrderEntity String "n1") [] (some "c1") ["p1", "p2"]).ret
      = (none, some ⟨"gateway down"⟩) ∧
    ((memCheckout memOrderRepository failingGateway).Execute
        (specOrderEntity String "n1") [] (some "c1") ["p1", "p2"]).state = [] :=
  have h := checkout_gateway_failure (specOrderEntity String "n1")
    (memCheckout memOrderRepository failingGateway) [] (some "c1") ["p1", "p2"]
    ⟨"gateway down"⟩ (by intro id hid; cases hid; decide)
    (by unfold ProductsResolve; decide) (by decide)
  ⟨h.1, h.2.2.2⟩

/-- C3: when the customer id is nil or resolves and some product id of the
sequence fails to resolve, the sequence splits as `pre ++ bad :: post` where
every id of `pre` resolves and `bad` fails with an error `e` (so `bad` is the
first failing id), and `Execute` returns `(nil, e)`, looks up exactly the ids
of `pre` and then `bad` and none of `post`, calls neither the gateway nor a
write of the order repository, and leaves the state unchanged. -/
theorem checkout_product_failure
    (E : OrderEntity Order Product OrderDTO)
    (c : CheckoutOrderUseCase σ Order Product Customer OrderDTO CheckoutDTO)
    (s : σ) (customerId : Option String) (ids : List String)
    (hc : CustomerResolves c s customerId)
    (hfail : ∃ id ∈ ids, (c.productRepository.FindProductByID s id).2 ≠ none) :
    ∃ pre bad post e, ids = pre ++ bad :: post ∧ ProductsResolve c s pre ∧
      (c.productRepository.FindProductByID s bad).2 = some e ∧
      (CheckoutOrderUseCase.Execute E c s customerId ids).ret = (none, some e) ∧
      (CheckoutOrderUseCase.Execute E c s customerId ids).calls =
        customerCalls customerId ++ (pre ++ [bad]).map Call.FindProductByID ∧
      (∀ call ∈ (CheckoutOrderUseCase.Execute E c s customerId ids).calls,
        call.isGateway = false ∧ call.isOrderWrite = false) ∧
      (CheckoutOrderUseCase.Execute E c s customerId ids).state = s := by
  obtain ⟨pre, bad, post, e, hsplit, hpre, hbad⟩ := exists_first_failure c s ids hfail
  refine ⟨pre, bad, post, e, hsplit, hpre, hbad, ?_⟩
  subst hsplit
  rw [Execute_product_failure E c s customerId pre bad post e hc hpre hbad]
  refine ⟨rfl, rfl, ?_, rfl⟩
  intro call hcall
  simp only [List.mem_append, List.mem_map, customerCalls, Option.mem_toList] at hcall
  rcases hcall with ⟨id, _, rfl⟩ | ⟨id, _, rfl⟩ <;> exact ⟨rfl, rfl⟩

/-- Witness of C3: no customer and the ids `p1, zz, p2, yy`, where `zz` is the
first id that fails; the run looks up `p1` and `zz` only. -/
theorem checkout_product_failure_witness :
    (((memCheckout memOrderRepository okGateway).Execute
          (specOrderEntity String "n1") [] none ["p1", "zz", "p2", "yy"]).ret
        = (none, some ⟨"product not found"⟩) ∧
      ((memCheckout memOrderRepository okGateway).Execute
          (specOrderEntity String "n1") [] none ["p1", "zz", "p2", "yy"]).calls
        = [Call.FindProductByID "p1", Call.FindProductByID "zz"]) ∧
    ∃ pre bad post e, ["p1", "zz", "p2", "yy"] = pre ++ bad :: post ∧
      ProductsResolve (memCheckout memOrderRepository okGateway) [] pre ∧
      (memProductRepository.FindProductByID [] bad).2 = some e ∧
      ((memCheckout memOrderRepository okGateway).Execute
          (specOrderEntity String "n1") [] none ["p1", "zz", "p2", "yy"]).ret
        = (none, some e) ∧
      ((memCheckout memOrderRepository okGateway).Execute
          (specOrderEntity String "n1") [] none ["p1", "zz", "p2", "yy"]).calls
        = customerCalls none ++ (pre ++ [bad]).map Call.FindProductByID ∧
      (∀ call ∈ ((memCheckout memOrderRepository okGateway).Execute
          (specOrderEntity String "n1") [] none ["p1", "zz", "p2", "yy"]).calls,
        call.isGateway = false ∧ call.isOrderWrite = false) ∧
      ((memCheckout memOrderRepository okGateway).Execute
          (specOrderEntity String "n1") [] none ["p1", "zz", "p2", "yy"]).state = [] :=
  ⟨by decide,
    checkout_product_failure (specOrderEntity String "n1")
      (memCheckout memOrderRepository okGateway) [] none ["p1", "zz", "p2", "yy"]
      (by intro id hid; cases hid) ⟨"zz", by decide, by decide⟩⟩

/-- C4 as stated fails: with the unresolvable customer id `zz`, the resolvable
product `p1` and a gateway that answers `qr`, `Execute` does not return
`(qr, nil)` and inserts nothing. -/
theorem checkout_success_unknown_customer :
    (∀ id ∈ ["p1"], (memProductRepository.FindProductByID [] id).2 = none) ∧
    (okGateway.Execute []
        ((specOrderEntity String "n1").NewOrderDTOFromEntity
          (describedOrder (specOrderEntity String "n1")
            (memCheckout memOrderRepository okGateway) [] (some "zz") ["p1"])) PIX).1
      = (some "qr", none) ∧
    ((memCheckout memOrderRepository okGateway).Execute
        (specOrderEntity String "n1") [] (some "zz") ["p1"]).ret
      = (none, some ⟨"customer not found"⟩) ∧
    ((memCheckout memOrderRepository okGateway).Execute
        (specOrderEntity String "n1") [] (some "zz") ["p1"]).ret ≠ (some "qr", none) ∧
    ((memCheckout memOrderRepository okGateway).Execute
        (specOrderEntity String "n1") [] (some "zz") ["p1"]).calls
      = [Call.GetCustomerByID "zz"] := by
  decide

/-- C4, amended: when the customer id is nil or resolves, every product id
resolves and the gateway succeeds with confirmation `k`, `Execute` returns
exactly `(k, nil)` and its last call is the `Insert` of the described order:
the order opened for the customer, then one `AddItem` per product id in input
order with the product that id resolves to and quantity 1, then
`SetStatus(AWAITING_PAYMENT)`. Any reader of the status that returns what
`SetStatus` last set reads `AWAITING_PAYMENT` on the inserted order, and any
observer that records the `AddItem` calls sees one entry of quantity 1 per
product id, repeated ids included. -/
theorem checkout_success
    (E : OrderEntity Order Product OrderDTO)
    (c : CheckoutOrderUseCase σ Order Product Customer OrderDTO CheckoutDTO)
    (s : σ) (customerId : Option String) (ids : List String)
    (k : Option CheckoutDTO)
    (hc : CustomerResolves c s customerId) (hp : ProductsResolve c s ids)
    (hg : (c.paymentGateway.Execute s
        (E.NewOrderDTOFromEntity (describedOrder E c s customerId ids)) PIX).1
        = (k, none)) :
    (CheckoutOrderUseCase.Execute E c s customerId ids).ret = (k, none) ∧
    (CheckoutOrderUseCase.Execute E c s customerId ids).calls =
      customerCalls customerId ++ ids.map Call.FindProductByID ++
        [Call.PaymentGatewayExecute
          (E.NewOrderDTOFromEntity (describedOrder E c s customerId ids)) PIX,
         Call.Insert (describedOrder E c s customerId ids)] ∧
    (CheckoutOrderUseCase.Execute E c s customerId ids).state =
      (c.orderRepository.Insert
        (c.paymentGateway.Execute s
          (E.NewOrderDTOFromEntity (describedOrder E c s customerId ids)) PIX).2
        (describedOrder E c s customerId ids)).2 ∧
    (∀ status : Order → OrderStatus, (∀ o st, status (E.SetStatus o st) = st) →
      status (describedOrder E c s customerId ids) = OrderStatus.AWAITING_PAYMENT) ∧
    (∀ items : Order → List (Product × Int),
      (∀ cid, items (E.CreateOpenOrder cid) = []) →
      (∀ o p q, items (E.AddItem o p q) = items o ++ [(p, q)]) →
      (∀ o st, items (E.SetStatus o st) = items o) →
      items (describedOrder E c s customerId ids)
        = ids.map (fun id => (resolvedProduct c s id, (1 : Int)))) := by
  have hrun := Execute_gateway_ok E c s customerId ids k
    (c.paymentGateway.Execute s
      (E.NewOrderDTOFromEntity (describedOrder E c s customerId ids)) PIX).2 hc hp
    (by rw [← hg])
  rw [hrun]
  refine ⟨rfl, rfl, rfl, ?_, ?_⟩
  · intro status hstatus
    exact hstatus _ _
  · intro items hopen hadd hset
    exact describedOrder_items E c s customerId ids items hopen hadd hset

/-- Witness of C4: customer `c1` and the ids `p1, p1, p2`; the persisted order
has status `AWAITING_PAYMENT` and three line items of quantity 1, two of them
for `p1`. -/
theorem checkout_success_witness :
    ((memCheckout memOrderRepository okGateway).Execute
        (specOrderEntity String "n1") [] (some "c1") ["p1", "p1", "p2"]).ret
      = (some "qr", none) ∧
    ((memCheckout memOrderRepository okGateway).Execute
        (specOrderEntity String "n1") [] (some "c1") ["p1", "p1", "p2"]).state
      = [⟨"n1", some "c1", [⟨"p1", 1⟩, ⟨"p1", 1⟩, ⟨"p2", 1⟩],
          OrderStatus.AWAITING_PAYMENT⟩] :=
  have h := checkout_success (specOrderEntity String "n1")
    (memCheckout memOrderRepository okGateway) [] (some "c1") ["p1", "p1", "p2"]
    (some "qr") (by intro id hid; cases hid; decide)
    (by unfold ProductsResolve; decide) (by decide)
  ⟨h.1, h.2.2.1.trans (by decide)⟩

/-- With a nil customer id, no call of checkout is on the customer repository,
whatever the other collaborators answer. -/
theorem Execute_nil_customer_calls
    (E : OrderEntity Order Product OrderDTO)
    (c : CheckoutOrderUseCase σ Order Product Customer OrderDTO CheckoutDTO)
    (s : σ) (ids : List String) :
    ∀ call ∈ (CheckoutOrderUseCase.Execute E c s none ids).calls,
      call.isCustomerRepo = false := by
  intro call hcall
  have hloop : ∀ call ∈ (c.fetchProductsLoop s ids ([] : List Product)).2,
      ∃ id, call = (Call.FindProductByID id : Call Order OrderDTO) :=
    fetchProductsLoop_calls c s ids []
  simp only [CheckoutOrderUseCase.Execute, CheckoutOrderUseCase.validateCustomerId,
    CheckoutOrderUseCase.fetchProducts, List.nil_append] at hcall
  split at hcall
  · rename_i heq
    rw [heq] at hloop
    obtain ⟨id, rfl⟩ := hloop call hcall
    rfl
  · rename_i heq
    rw [heq] at hloop
    split at hcall
    · simp only [List.mem_append, List.mem_singleton] at hcall
      rcases hcall with h | rfl
      · obtain ⟨id, rfl⟩ := hloop call h
        rfl
      · rfl
    · simp only [List.mem_append, List.mem_cons, List.mem_singleton,
        List.not_mem_nil, or_false] at hcall
      rcases hcall with h | rfl | rfl
      · obtain ⟨id, rfl⟩ := hloop call h
        rfl
      · rfl
      · rfl

/-- C5: when a non-nil customer id is supplied and `GetCustomerByID` fails
with the error `e`, `Execute` returns `(nil, e)`, its only call is that
customer lookup (no product lookup, gateway call or insert) and the state is
unchanged; and when the customer id is nil, validation succeeds without any
call and no call of `Execute` is on the customer repository. -/
theorem checkout_customer_validation
    (E : OrderEntity Order Product OrderDTO)
    (c : CheckoutOrderUseCase σ Order Product Customer OrderDTO CheckoutDTO)
    (s : σ) (ids : List String) :
    (∀ (id : String) (e : GoError),
      (c.customerRepository.GetCustomerByID s id).2 = some e →
        (CheckoutOrderUseCase.Execute E c s (some id) ids).ret = (none, some e) ∧
        (CheckoutOrderUseCase.Execute E c s (some id) ids).calls
          = [Call.GetCustomerByID id] ∧
        (CheckoutOrderUseCase.Execute E c s (some id) ids).state = s) ∧
    c.validateCustomerId s none = (none, []) ∧
    (∀ call ∈ (CheckoutOrderUseCase.Execute E c s none ids).calls,
      call.isCustomerRepo = false) := by
  refine ⟨?_, rfl, Execute_nil_customer_calls E c s ids⟩
  intro id e he
  simp [CheckoutOrderUseCase.Execute, CheckoutOrderUseCase.validateCustomerId, he]

/-- Witness of C5: the unknown customer `zz` with the products `p1, p2`. -/
theorem checkout_customer_validation_witness :
    ((memCheckout memOrderRepository okGateway).Execute
        (specOrderEntity String "n1") [] (some "zz") ["p1", "p2"]).ret
      = (none, some ⟨"customer not found"⟩) ∧
    ((memCheckout memOrderRepository okGateway).Execute
        (specOrderEntity String "n1") [] (some "zz") ["p1", "p2"]).calls
      = [Call.GetCustomerByID "zz"] ∧
    ((memCheckout memOrderRepository okGateway).Execute
        (specOrderEntity String "n1") [] (some "zz") ["p1", "p2"]).state = [] :=
  (checkout_customer_validation (specOrderEntity String "n1")
    (memCheckout memOrderRepository okGateway) [] ["p1", "p2"]).1
    "zz" ⟨"customer not found"⟩ (by decide)

/-- No product lookup is a gateway call. -/
theorem filter_isGateway_lookups (ids : List String) :
    (ids.map (Call.FindProductByID : String → Call Order OrderDTO)).filter
      Call.isGateway = [] := by
  induction ids with
  | nil => rfl
  | cons id rest ih => simp [List.filter, Call.isGateway, ih]

/-- No customer lookup is a gateway call. -/
theorem filter_isGateway_customer (customerId : Option String) :
    (customerCalls customerId : List (Call Order OrderDTO)).filter
      Call.isGateway = [] := by
  cases customerId <;> rfl

/-- C6: when the customer id is nil or resolves and every product id resolves,
the gateway calls of `Execute` are exactly one, with payment method `PIX` and
the data-transfer representation of the described order (status set to
`AWAITING_PAYMENT` after one `AddItem` per id), whatever the gateway answers;
for the empty sequence the gateway is called with the representation of the
order that was opened and had its status set, with no `AddItem`. The run is
that one execution of the gateway: when the gateway answers with an error the
result is that error and the state is the one the gateway left after that
single execution; when it answers without error the result is its
confirmation and the state is the one `Insert` leaves from the state after
that single execution; in both cases the gateway call follows the customer
lookup and the product lookups. -/
theorem checkout_gateway_once
    (E : OrderEntity Order Product OrderDTO)
    (c : CheckoutOrderUseCase σ Order Product Customer OrderDTO CheckoutDTO)
    (s : σ) (customerId : Option String) (ids : List String)
    (hc : CustomerResolves c s customerId) (hp : ProductsResolve c s ids) :
    (CheckoutOrderUseCase.Execute E c s customerId ids).calls.filter Call.isGateway
      = [Call.PaymentGatewayExecute
          (E.NewOrderDTOFromEntity
            (E.SetStatus
              (ids.foldl (fun o id => E.AddItem o (resolvedProduct c s id) 1)
                (E.CreateOpenOrder customerId))
              OrderStatus.AWAITING_PAYMENT)) "PIX"] ∧
    (CheckoutOrderUseCase.Execute E c s customerId []).calls.filter Call.isGateway
      = [Call.PaymentGatewayExecute
          (E.NewOrderDTOFromEntity
            (E.SetStatus (E.CreateOpenOrder customerId)
              OrderStatus.AWAITING_PAYMENT)) "PIX"] ∧
    (∀ e, (c.paymentGateway.Execute s
          (E.NewOrderDTOFromEntity (describedOrder E c s customerId ids)) "PIX").1.2
        = some e →
      (CheckoutOrderUseCase.Execute E c s customerId ids).ret = (none, some e) ∧
      (CheckoutOrderUseCase.Execute E c s customerId ids).state =
        (c.paymentGateway.Execute s
          (E.NewOrderDTOFromEntity (describedOrder E c s customerId ids)) "PIX").2 ∧
      (CheckoutOrderUseCase.Execute E c s customerId ids).calls =
        customerCalls customerId ++ ids.map Call.FindProductByID ++
          [Call.PaymentGatewayExecute
            (E.NewOrderDTOFromEntity (describedOrder E c s customerId ids)) "PIX"]) ∧
    ((c.paymentGateway.Execute s
          (E.NewOrderDTOFromEntity (describedOrder E c s customerId ids)) "PIX").1.2
        = none →
      (CheckoutOrderUseCase.Execute E c s customerId ids).ret =
        ((c.paymentGateway.Execute s
          (E.NewOrderDTOFromEntity (describedOrder E c s customerId ids)) "PIX").1.1,
          none) ∧
      (CheckoutOrderUseCase.Execute E c s customerId ids).state =
        (c.orderRepository.Insert
          (c.paymentGateway.Execute s
            (E.NewOrderDTOFromEntity (describedOrder E c s customerId ids)) "PIX").2
          (describedOrder E c s customerId ids)).2 ∧
      (CheckoutOrderUseCase.Execute E c s customerId ids).calls =
        customerCalls customerId ++ ids.map Call.FindProductByID ++
          [Call.PaymentGatewayExecute
            (E.NewOrderDTOFromEntity (describedOrder E c s customerId ids)) "PIX",
           Call.Insert (describedOrder E c s customerId ids)]) := by
  have main : ∀ l : List String, ProductsResolve c s l →
      (CheckoutOrderUseCase.Execute E c s customerId l).calls.filter Call.isGateway
        = [Call.PaymentGatewayExecute
            (E.NewOrderDTOFromEntity (describedOrder E c s customerId l)) PIX] := by
    intro l hl
    rcases hres : c.paymentGateway.Execute s
        (E.NewOrderDTOFromEntity (describedOrder E c s customerId l)) PIX
      with ⟨⟨k, err⟩, s1⟩
    cases err with
    | some e =>
      rw [Execute_gateway_error E c s customerId l k e s1 hc hl hres]
      simp [List.filter_append, filter_isGateway_lookups, filter_isGateway_customer,
        List.filter, Call.isGateway]
    | none =>
      rw [Execute_gateway_ok E c s customerId l k s1 hc hl hres]
      simp [List.filter_append, filter_isGateway_lookups, filter_isGateway_customer,
        List.filter, Call.isGateway]
  refine ⟨main ids hp, main [] (fun _ h => by cases h), ?_, ?_⟩
  · intro e he
    have hrun := Execute_gateway_error E c s customerId ids
      (c.paymentGateway.Execute s
        (E.NewOrderDTOFromEntity (describedOrder E c s customerId ids)) PIX).1.1 e
      (c.paymentGateway.Execute s
        (E.NewOrderDTOFromEntity (describedOrder E c s customerId ids)) PIX).2 hc hp
      (by rw [← he]; rfl)
    rw [hrun]
    exact ⟨rfl, rfl, rfl⟩
  · intro he
    have hrun := Execute_gateway_ok E c s customerId ids
      (c.paymentGateway.Execute s
        (E.NewOrderDTOFromEntity (describedOrder E c s customerId ids)) PIX).1.1
      (c.paymentGateway.Execute s
        (E.NewOrderDTOFromEntity (describedOrder E c s customerId ids)) PIX).2 hc hp
      (by rw [← he]; rfl)
    rw [hrun]
    exact ⟨rfl, rfl, rfl⟩

/-- Witness of C6, over a state that counts the gateway executions, started
at 0. With customer `c1` and the ids `p1, p2` the one gateway call carries the
order with both items and status `AWAITING_PAYMENT`, and the count ends at 1,
both when the gateway succeeds and when it fails; with the empty sequence the
gateway is still called once, with an order without items. -/
theorem checkout_gateway_once_witness :
    (((countingCheckout countingGateway).Execute
          (specOrderEntity String "n1") 0 (some "c1") ["p1", "p2"]).calls.filter
          Call.isGateway
        = [Call.PaymentGatewayExecute
            (some ⟨"n1", some "c1", [⟨"p1", 1⟩, ⟨"p2", 1⟩],
              OrderStatus.AWAITING_PAYMENT⟩) "PIX"] ∧
      ((countingCheckout countingGateway).Execute
          (specOrderEntity String "n1") 0 (some "c1") ["p1", "p2"]).ret
        = (some "qr", none) ∧
      ((countingCheckout countingGateway).Execute
          (specOrderEntity String "n1") 0 (some "c1") ["p1", "p2"]).state = 1) ∧
    (((countingCheckout countingFailingGateway).Execute
          (specOrderEntity String "n1") 0 (some "c1") ["p1", "p2"]).ret
        = (none, some ⟨"gateway down"⟩) ∧
      ((countingCheckout countingFailingGateway).Execute
          (specOrderEntity String "n1") 0 (some "c1") ["p1", "p2"]).state = 1) ∧
    (((countingCheckout countingFailingGateway).Execute
          (specOrderEntity String "n1") 0 (some "c1") []).calls.filter Call.isGateway
        = [Call.PaymentGatewayExecute
            (some ⟨"n1", some "c1", [], OrderStatus.AWAITING_PAYMENT⟩) "PIX"] ∧
      ((countingCheckout countingFailingGateway).Execute
          (specOrderEntity String "n1") 0 (some "c1") []).state = 1) :=
  have hok := checkout_gateway_once (specOrderEntity String "n1")
    (countingCheckout countingGateway) 0 (some "c1") ["p1", "p2"]
    (by intro id hid; cases hid; decide) (by unfold ProductsResolve; decide)
  have hfail := checkout_gateway_once (specOrderEntity String "n1")
    (countingCheckout countingFailingGateway) 0 (some "c1") ["p1", "p2"]
    (by intro id hid; cases hid; decide) (by unfold ProductsResolve; decide)
  have hempty := checkout_gateway_once (specOrderEntity String "n1")
    (countingCheckout countingFailingGateway) 0 (some "c1") []
    (by intro id hid; cases hid; decide) (by unfold ProductsResolve; decide)
  ⟨⟨hok.1, (hok.2.2.2 (by decide)).1, (hok.2.2.2 (by decide)).2.1⟩,
   ⟨(hfail.2.2.1 ⟨"gateway down"⟩ (by decide)).1,
    (hfail.2.2.1 ⟨"gateway down"⟩ (by decide)).2.1⟩,
   ⟨hempty.1, (hempty.2.2.1 ⟨"gateway down"⟩ (by decide)).2.1⟩⟩

/-! ## Add order item: the claims -/

/-- The add-order-item use case never changes the state and never calls a
write of the order repository. -/
theorem addOrderItem_no_write
    (E : OrderEntity Order Product OrderDTO)
    (co : AddOrderItemUseCase σ Order Product)
    (s : σ) (request : AddOrderItemUseCaseRequest) :
    (co.Execute E s request).state = s ∧
    ∀ call ∈ (co.Execute E s request).calls, call.isOrderWrite = false := by
  unfold AddOrderItemUseCase.Execute
  split
  · exact ⟨rfl, by intro call h; simp only [List.mem_singleton] at h; subst h; rfl⟩
  · split
    · refine ⟨rfl, ?_⟩
      intro call h
      simp only [List.mem_cons, List.mem_singleton, List.not_mem_nil, or_false] at h
      rcases h with rfl | rfl <;> rfl
    · refine ⟨rfl, ?_⟩
      intro call h
      simp only [List.mem_cons, List.mem_singleton, List.not_mem_nil, or_false] at h
      rcases h with rfl | rfl <;> rfl

/-- C7, evaluated where it fails: for the persisted open order `o1` without
items, product id 1 (which resolves to `p1`) and quantity 3, `Execute` returns
the representation of `o1` still without items, makes the two lookups and no
write on the order repository, and the persisted order is unchanged. -/
theorem addOrderItem_appends_nothing :
    (memProductRepository.FindByID [openOrder1] 1) = ("p1", none) ∧
    (memOrderRepository.FindByID [openOrder1] "o1") = (openOrder1, none) ∧
    (memAddOrderItem.Execute (specOrderEntity String "n1") [openOrder1]
        ⟨1, 3, "o1"⟩).ret
      = (some ⟨"o1", none, [], OrderStatus.OPEN⟩, none) ∧
    (memAddOrderItem.Execute (specOrderEntity String "n1") [openOrder1]
        ⟨1, 3, "o1"⟩).ret
      ≠ (some ⟨"o1", none, [⟨"p1", 3⟩], OrderStatus.OPEN⟩, none) ∧
    (memAddOrderItem.Execute (specOrderEntity String "n1") [openOrder1]
        ⟨1, 3, "o1"⟩).calls
      = [Call.ProductFindByID 1, Call.OrderFindByID "o1"] ∧
    (memAddOrderItem.Execute (specOrderEntity String "n1") [openOrder1]
        ⟨1, 3, "o1"⟩).state
      = [⟨"o1", none, [], OrderStatus.OPEN⟩] := by
  decide

/-- C8: when the product lookup fails with the error `e`, `Execute` returns
`(nil, e)`, its only call is that product lookup, so the order repository is
not called at all (no lookup of the order, no insert, no update), and the
state is unchanged; nothing is assumed of the order id. -/
theorem addOrderItem_product_failure
    (E : OrderEntity Order Product OrderDTO)
    (co : AddOrderItemUseCase σ Order Product)
    (s : σ) (request : AddOrderItemUseCaseRequest) (e : GoError)
    (h : (co.productRepository.FindByID s request.ProductID).2 = some e) :
    (co.Execute E s request).ret = (none, some e) ∧
    (co.Execute E s request).calls = [Call.ProductFindByID request.ProductID] ∧
    (∀ call ∈ (co.Execute E s request).calls, call.isOrderRepo = false) ∧
    (co.Execute E s request).state = s := by
  simp [AddOrderItemUseCase.Execute, h, Call.isOrderRepo]

/-- Witness of C8: the unknown product id 9, once with the order id `o1` that
resolves and once with the order id `zz` that does not. -/
theorem addOrderItem_product_failure_witness :
    ((memAddOrderItem.Execute (specOrderEntity String "n1") [openOrder1]
        ⟨9, 3, "o1"⟩).ret = (none, some ⟨"product not found"⟩) ∧
      (memAddOrderItem.Execute (specOrderEntity String "n1") [openOrder1]
        ⟨9, 3, "o1"⟩).calls = [Call.ProductFindByID 9]) ∧
    ((memAddOrderItem.Execute (specOrderEntity String "n1") [openOrder1]
        ⟨9, 3, "zz"⟩).ret = (none, some ⟨"product not found"⟩) ∧
      (memAddOrderItem.Execute (specOrderEntity String "n1") [openOrder1]
        ⟨9, 3, "zz"⟩).calls = [Call.ProductFindByID 9]) :=
  have h1 := addOrderItem_product_failure (specOrderEntity String "n1")
    memAddOrderItem [openOrder1] ⟨9, 3, "o1"⟩ ⟨"product not found"⟩ (by decide)
  have h2 := addOrderItem_product_failure (specOrderEntity String "n1")
    memAddOrderItem [openOrder1] ⟨9, 3, "zz"⟩ ⟨"product not found"⟩ (by decide)
  ⟨⟨h1.1, h1.2.1⟩, ⟨h2.1, h2.2.1⟩⟩

/-- C9: when the product id resolves and the lookup of the order fails with
the error `e`, `Execute` returns `(nil, e)`, its calls are the two lookups, none
of them a write (`Insert` or `Update`) on the order repository, and the state
is unchanged. -/
theorem addOrderItem_order_failure
    (E : OrderEntity Order Product OrderDTO)
    (co : AddOrderItemUseCase σ Order Product)
    (s : σ) (request : AddOrderItemUseCaseRequest) (e : GoError)
    (hp : (co.productRepository.FindByID s request.ProductID).2 = none)
    (ho : (co.orderRepository.FindByID s request.OrderID).2 = some e) :
    (co.Execute E s request).ret = (none, some e) ∧
    (co.Execute E s request).calls
      = [Call.ProductFindByID request.ProductID, Call.OrderFindByID request.OrderID] ∧
    (∀ call ∈ (co.Execute E s request).calls, call.isOrderWrite = false) ∧
    (co.Execute E s request).state = s := by
  have hpair : co.orderRepository.FindByID s request.OrderID
      = ((co.orderRepository.FindByID s request.OrderID).1, some e) := by
    rw [← ho]
  refine ⟨?_, ?_, (addOrderItem_no_write E co s request).2,
    (addOrderItem_no_write E co s request).1⟩
  · simp only [AddOrderItemUseCase.Execute, hp]
    rw [hpair]
  · simp only [AddOrderItemUseCase.Execute, hp]
    rw [hpair]

/-- Witness of C9: product id 1 resolves, order id `zz` does not. -/
theorem addOrderItem_order_failure_witness :
    (memAddOrderItem.Execute (specOrderEntity String "n1") [openOrder1]
        ⟨1, 3, "zz"⟩).ret = (none, some ⟨"order not found"⟩) ∧
    (memAddOrderItem.Execute (specOrderEntity String "n1") [openOrder1]
        ⟨1, 3, "zz"⟩).calls = [Call.ProductFindByID 1, Call.OrderFindByID "zz"] ∧
    (memAddOrderItem.Execute (specOrderEntity String "n1") [openOrder1]
        ⟨1, 3, "zz"⟩).state = [openOrder1] :=
  have h := addOrderItem_order_failure (specOrderEntity String "n1")
    memAddOrderItem [openOrder1] ⟨1, 3, "zz"⟩ ⟨"order not found"⟩
    (by decide) (by decide)
  ⟨h.1, h.2.1, h.2.2.2⟩

/-! ## Controllers: the claim -/

/-- C10: for `OpenOrder` and for `AddOrderItem`, on every request: when
`Validate` fails the only event is one error response with status 400 (the use
case is not executed); when `Validate` passes and the use case returns an
error, the use case ran once and the one response has status 406 and carries
the message of that error; when the use case returns no error, the one
response has status 201 and carries the order representation the use case
returned; in every case exactly one response is sent. -/
theorem controller_responses
    (E : OrderEntity Order Product OrderDTO)
    (ValidateOpen : OpenOrderRequest → Option GoError)
    (ValidateAdd : AddOrderItemRequest → Option GoError)
    (openOrderExecute : OpenOrderUseCaseExecute σ Order Customer OrderDTO)
    (cc : OrderController σ Order Product Customer OrderDTO CheckoutDTO)
    (s : σ) (cOpen : HTTPContext OpenOrderRequest)
    (cAdd : HTTPContext AddOrderItemRequest) :
    ((∀ err, ValidateOpen (openOrderRequest cOpen) = some err →
        (cc.OpenOrder ValidateOpen openOrderExecute s cOpen).1
          = [ControllerEvent.sendError 400 err.msg]) ∧
      (ValidateOpen (openOrderRequest cOpen) = none →
        ∀ err, (openOrderExecute cc.orderRepository cc.customerRepository s
            (openOrderRequest cOpen).CustomerID).1.2 = some err →
          (cc.OpenOrder ValidateOpen openOrderExecute s cOpen).1
            = [ControllerEvent.OpenOrderExecute (openOrderRequest cOpen).CustomerID,
               ControllerEvent.sendError 406 err.msg]) ∧
      (ValidateOpen (openOrderRequest cOpen) = none →
        (openOrderExecute cc.orderRepository cc.customerRepository s
            (openOrderRequest cOpen).CustomerID).1.2 = none →
          (cc.OpenOrder ValidateOpen openOrderExecute s cOpen).1
            = [ControllerEvent.OpenOrderExecute (openOrderRequest cOpen).CustomerID,
               ControllerEvent.sendSuccess 201 "open-order"
                 (openOrderExecute cc.orderRepository cc.customerRepository s
                   (openOrderRequest cOpen).CustomerID).1.1]) ∧
      ((cc.OpenOrder ValidateOpen openOrderExecute s cOpen).1.filter
          ControllerEvent.isResponse).length = 1) ∧
    ((∀ err, ValidateAdd (addOrderItemRequest cAdd) = some err →
        (cc.AddOrderItem E ValidateAdd s cAdd).1
          = [ControllerEvent.sendError 400 err.msg]) ∧
      (ValidateAdd (addOrderItemRequest cAdd) = none →
        ∀ err, (cc.addOrderItemUseCase.Execute E s
            (addOrderItemUseCaseRequest cAdd)).ret.2 = some err →
          (cc.AddOrderItem E ValidateAdd s cAdd).1
            = [ControllerEvent.AddOrderItemExecute (addOrderItemUseCaseRequest cAdd)
                 (cc.addOrderItemUseCase.Execute E s
                   (addOrderItemUseCaseRequest cAdd)).calls,
               ControllerEvent.sendError 406 err.msg]) ∧
      (ValidateAdd (addOrderItemRequest cAdd) = none →
        (cc.addOrderItemUseCase.Execute E s
            (addOrderItemUseCaseRequest cAdd)).ret.2 = none →
          (cc.AddOrderItem E ValidateAdd s cAdd).1
            = [ControllerEvent.AddOrderItemExecute (addOrderItemUseCaseRequest cAdd)
                 (cc.addOrderItemUseCase.Execute E s
                   (addOrderItemUseCaseRequest cAdd)).calls,
               ControllerEvent.sendSuccess 201 "add-order-item"
                 (cc.addOrderItemUseCase.Execute E s
                   (addOrderItemUseCaseRequest cAdd)).ret.1]) ∧
      ((cc.AddOrderItem E ValidateAdd s cAdd).1.filter
          ControllerEvent.isResponse).length = 1) := by
  refine ⟨⟨?_, ?_, ?_, ?_⟩, ⟨?_, ?_, ?_, ?_⟩⟩
  · intro err hv
    unfold openOrderRequest at hv
    simp only [OrderController.OpenOrder, hv]
    rfl
  · intro hv err he
    unfold openOrderRequest at hv he
    simp only [OrderController.OpenOrder, hv]
    split
    · rename_i heq
      rw [heq] at he
      simp only [Option.some.injEq] at he
      subst he
      rfl
    · rename_i heq
      rw [heq] at he
      cases he
  · intro hv he
    unfold openOrderRequest at hv he
    simp only [OrderController.OpenOrder, hv]
    split
    · rename_i heq
      rw [heq] at he
      cases he
    · rename_i heq
      simp only [openOrderRequest, heq]
      rfl
  · unfold OrderController.OpenOrder
    simp only
    split
    · rfl
    · split <;> rfl
  · intro err hv
    unfold addOrderItemRequest at hv
    simp only [OrderController.AddOrderItem, hv]
    rfl
  · intro hv err he
    unfold addOrderItemUseCaseRequest addOrderItemRequest
      OrderController.addOrderItemUseCase at *
    simp only [OrderController.AddOrderItem, hv]
    split
    · rename_i heq
      rw [heq] at he
      simp only [Option.some.injEq] at he
      subst he
      rfl
    · rename_i heq
      rw [heq] at he
      cases he
  · intro hv he
    unfold addOrderItemUseCaseRequest addOrderItemRequest
      OrderController.addOrderItemUseCase at *
    simp only [OrderController.AddOrderItem, hv]
    split
    · rename_i heq
      rw [heq] at he
      cases he
    · rename_i heq
      simp only [heq]
      rfl
  · unfold OrderController.AddOrderItem
    simp only
    split
    · rfl
    · split <;> rfl

/-- Witness of C10: the in-memory controller on six requests, one per outcome
of each controller. -/
theorem controller_responses_witness :
    ((memController.OpenOrder demoValidateOpen
          (specOpenOrderExecute (specOrderEntity String "n1")) []
          (openContext (some ""))).1
        = [ControllerEvent.sendError 400 "customer_id is empty"] ∧
      (memController.OpenOrder demoValidateOpen
          (specOpenOrderExecute (specOrderEntity String "n1")) []
          (openContext (some "zz"))).1
        = [ControllerEvent.OpenOrderExecute (some "zz"),
           ControllerEvent.sendError 406 "customer not found"] ∧
      (memController.OpenOrder demoValidateOpen
          (specOpenOrderExecute (specOrderEntity String "n1")) []
          (openContext none)).1
        = [ControllerEvent.OpenOrderExecute none,
           ControllerEvent.sendSuccess 201 "open-order"
             (some ⟨"n1", none, [], OrderStatus.OPEN⟩)]) ∧
    ((memController.AddOrderItem (specOrderEntity String "n1") demoValidateAdd
          [openOrder1] (addContext 1 0 "o1")).1
        = [ControllerEvent.sendError 400 "quantity is invalid"] ∧
      (memController.AddOrderItem (specOrderEntity String "n1") demoValidateAdd
          [openOrder1] (addContext 9 3 "o1")).1
        = [ControllerEvent.AddOrderItemExecute ⟨9, 3, "o1"⟩ [Call.ProductFindByID 9],
           ControllerEvent.sendError 406 "product not found"] ∧
      (memController.AddOrderItem (specOrderEntity String "n1") demoValidateAdd
          [openOrder1] (addContext 1 3 "o1")).1
        = [ControllerEvent.AddOrderItemExecute ⟨1, 3, "o1"⟩
             [Call.ProductFindByID 1, Call.OrderFindByID "o1"],
           ControllerEvent.sendSuccess 201 "add-order-item"
             (some ⟨"o1", none, [], OrderStatus.OPEN⟩)]) :=
  ⟨⟨(controller_responses (specOrderEntity String "n1") demoValidateOpen demoValidateAdd
        (specOpenOrderExecute (specOrderEntity String "n1")) memController []
        (openContext (some "")) (addContext 1 0 "o1")).1.1
        ⟨"customer_id is empty"⟩ (by decide),
    (controller_responses (specOrderEntity String "n1") demoValidateOpen demoValidateAdd
        (specOpenOrderExecute (specOrderEntity String "n1")) memController []
        (openContext (some "zz")) (addContext 1 0 "o1")).1.2.1
        (by decide) ⟨"customer not found"⟩ (by decide),
    (controller_responses (specOrderEntity String "n1") demoValidateOpen demoValidateAdd
        (specOpenOrderExecute (specOrderEntity String "n1")) memController []
        (openContext none) (addContext 1 0 "o1")).1.2.2.1
        (by decide) (by decide)⟩,
   ⟨(controller_responses (specOrderEntity String "n1") demoValidateOpen demoValidateAdd
        (specOpenOrderExecute (specOrderEntity String "n1")) memController [openOrder1]
        (openContext none) (addContext 1 0 "o1")).2.1
        ⟨"quantity is invalid"⟩ (by decide),
    (controller_responses (specOrderEntity String "n1") demoValidateOpen demoValidateAdd
        (specOpenOrderExecute (specOrderEntity String "n1")) memController [openOrder1]
        (openContext none) (addContext 9 3 "o1")).2.2.1
        (by decide) ⟨"product not found"⟩ (by decide),
    (controller_responses (specOrderEntity String "n1") demoValidateOpen demoValidateAdd
        (specOpenOrderExecute (specOrderEntity String "n1")) memController [openOrder1]
        (openContext none) (addContext 1 3 "o1")).2.2.2.1
        (by decide) (by decide)⟩⟩

end TechChallenge
